import Mathlib

/-!
Shallow embedding of the replicate-rs client core (src/errors.rs, src/config.rs,
src/lib.rs, src/models.rs, src/predictions.rs).

Modelling conventions:
* JSON decoding/encoding (serde_json) is an external collaborator; each decode
  the code performs is a `String → Option _` parameter gathered in `SerdeOracle`.
  Error-message text produced by serde is likewise external and is modelled by
  fixed placeholder strings (no claim inspects those messages).
* The HTTP transport is a function `Request → TransportResult`; every function
  that performs I/O returns, next to its result, the ordered list of requests
  it issued (its trace).
* The `REPLICATE_API_KEY` environment variable read by `lib.rs::api_key` is an
  `Option String` parameter.
* `anyhow::Error` values (functions returning `anyhow::Result`) are modelled by
  `AnyErr`: either a wrapped typed `ReplicateError` (the `?` conversion) or a
  plain message string.
-/

namespace Replicate

/-- Model of `serde_json::Value`: an arbitrary JSON document, opaque to the
client (numbers simplified to integers; the client never interprets them). -/
inductive Value where
  | null
  | boolean (b : Bool)
  | number (n : Int)
  | str (s : String)
  | arr (elems : List Value)
  | obj (fields : List (String × Value))

/-- errors.rs: `enum ReplicateError`. -/
inductive ReplicateError where
  | MissingCredentials (message : String)
  | InvalidCredentials (message : String)
  | PaymentNeeded (message : String)
  | SerializationError (message : String)
  | ClientError (message : String)
  | InvalidRequest (message : String)
  | Misc (message : String)
deriving DecidableEq

/-- errors.rs: `impl fmt::Display for ReplicateError` — the string written by
`fmt`. -/
def ReplicateError.display : ReplicateError → String
  | .MissingCredentials message
  | .PaymentNeeded message
  | .ClientError message
  | .Misc message
  | .SerializationError message => message
  | _ => "unknown replicate error"

/-- errors.rs: `struct ErrorData { title, detail }`. -/
structure ErrorData where
  title : String
  detail : String

/-- errors.rs: `get_error(status, data)`. The serde decode of the `{title,
detail}` body is the external parameter `parseErrorData`. Status codes are
naturals: 402 = PAYMENT_REQUIRED, 401 = UNAUTHORIZED. -/
def get_error (parseErrorData : String → Option ErrorData)
    (status : Nat) (data : String) : ReplicateError :=
  if status = 402 then
    match parseErrorData data with
    | some d => .PaymentNeeded (d.title ++ ": " ++ d.detail)
    | none => .PaymentNeeded "error details not available"
  else if status = 401 then
    match parseErrorData data with
    | some d => .InvalidCredentials (d.title ++ ": " ++ d.detail)
    | none => .InvalidCredentials "error details not available"
  else
    match parseErrorData data with
    | some d => .Misc (d.title ++ ": " ++ d.detail)
    | none => .Misc "error details not available"

/-- Model of `anyhow::Error`: either a wrapped `ReplicateError` (from a `?`
conversion) or a plain message (from `anyhow!` / a displayed transport or
serde error). -/
inductive AnyErr where
  | replicate (e : ReplicateError)
  | msg (s : String)
deriving DecidableEq

/-- lib.rs: `api_key()` — reads `REPLICATE_API_KEY`, modelled as the
parameter `envKey`. -/
def api_key (envKey : Option String) : Except ReplicateError String :=
  match envKey with
  | none => .error (.MissingCredentials
      "REPLICATE_API_KEY not available in environment variables.")
  | some k => .ok k

/-- config.rs: `struct ReplicateConfig`. -/
structure ReplicateConfig where
  api_key : Option String
  base_url : String

/-- config.rs: `ReplicateConfig::get_api_key`. -/
def ReplicateConfig.get_api_key (c : ReplicateConfig) :
    Except ReplicateError String :=
  match c.api_key with
  | none => .error (.MissingCredentials
      "REPLICATE_API_KEY not provided in environment variable")
  | some k => .ok k

/-- config.rs: `ReplicateConfig::get_base_url`. -/
def ReplicateConfig.get_base_url (c : ReplicateConfig) : String :=
  c.base_url

/-- predictions.rs: `enum PredictionStatus`. -/
inductive PredictionStatus where
  | Starting
  | Processing
  | Succeeded
  | Failed
  | Canceled
deriving DecidableEq

/-- predictions.rs: `struct PredictionUrls`. -/
structure PredictionUrls where
  cancel : String
  get : String
  stream : Option String

/-- predictions.rs: `struct Prediction`. -/
structure Prediction where
  id : String
  model : String
  version : String
  input : Value
  status : PredictionStatus
  created_at : String
  urls : PredictionUrls
  output : Option Value

/-- predictions.rs: `struct Predictions` (paginated list). -/
structure Predictions where
  next : Option String
  previous : Option String
  results : List Prediction

/-- models.rs: `struct ModelVersion`. -/
structure ModelVersion where
  id : String
  created_at : String
  cog_version : String
  openapi_schema : Value

/-- models.rs: `struct ModelVersions` (paginated list). -/
structure ModelVersions where
  next : Option String
  previous : Option String
  results : List ModelVersion

/-- predictions.rs: `struct PredictionInput` — the creation body
`{version, input, stream}`. -/
structure PredictionInput where
  version : String
  input : Value
  stream : Bool

/-- One HTTP request issued by the client, identified by its method, endpoint
and (for creation) its structured JSON body. Headers are a transport concern
and are not modelled. -/
inductive Request where
  | httpGet (endpoint : String)
  | httpPost (endpoint : String)
  | httpPostJson (endpoint : String) (body : PredictionInput)

/-- What the transport returns for a request: `sendError` models a failed
`send()`, `textError` a response whose `.text()` read fails, `success` a
response with a status code and a textual body. -/
inductive TransportResult where
  | sendError (message : String)
  | textError (status : Nat) (message : String)
  | success (status : Nat) (body : String)

/-- The external serde decoders used by the client, one per record shape. -/
structure SerdeOracle where
  parseModelVersions : String → Option ModelVersions
  parsePrediction : String → Option Prediction
  parsePredictions : String → Option Predictions
  parseErrorData : String → Option ErrorData

/-- models.rs: `struct ModelClient`. -/
structure ModelClient where
  client : ReplicateConfig

/-- models.rs: `ModelClient::from`. -/
def ModelClient.fromConfig (c : ReplicateConfig) : ModelClient :=
  ModelClient.mk c

/-- models.rs: `ModelClient::list_versions` — GET
`{base_url}/models/{owner}/{name}/versions`; on 200 decode `ModelVersions`,
otherwise map through `get_error`. -/
def ModelClient.list_versions (mc : ModelClient) (owner name : String)
    (oracle : SerdeOracle) (env : Request → TransportResult) :
    Except ReplicateError ModelVersions × List Request :=
  let base_url := mc.client.get_base_url
  match mc.client.get_api_key with
  | .error e => (.error e, [])
  | .ok _ =>
    let endpoint := base_url ++ "/models/" ++ owner ++ "/" ++ name ++ "/versions"
    let req := Request.httpGet endpoint
    match env req with
    | .sendError m => (.error (.ClientError m), [req])
    | .textError _ m => (.error (.ClientError m), [req])
    | .success status data =>
      if status = 200 then
        match oracle.parseModelVersions data with
        | some vs => (.ok vs, [req])
        | none => (.error (.SerializationError
            "response body did not match expected shape"), [req])
      else
        (.error (get_error oracle.parseErrorData status data), [req])

/-- models.rs: `ModelClient::get_latest_version` — `list_versions` then
`results.get(0).ok_or(Misc("no versions found for {owner}/{name}"))`. The
message is the literal from the source (no interpolation is performed there). -/
def ModelClient.get_latest_version (mc : ModelClient) (owner name : String)
    (oracle : SerdeOracle) (env : Request → TransportResult) :
    Except ReplicateError ModelVersion × List Request :=
  match mc.list_versions owner name oracle env with
  | (.error e, t) => (.error e, t)
  | (.ok all_versions, t) =>
    match all_versions.results.head? with
    | none => (.error (.Misc "no versions found for {owner}/{name}"), t)
    | some latest_version => (.ok latest_version, t)

/-- Handle returned by `get_stream`: the event-stream adapter wrapping the
open response body at a given URL (the adapter itself is out of scope). -/
structure StreamHandle where
  url : String

/-- predictions.rs: `Prediction::reload` — GET the record's own `urls.get`,
decode the body as a `Prediction` and assign `*self = prediction`. Returns
the call's result together with the final value of `self`. The uncaught
response status is not inspected by the source. -/
def Prediction.reload (p : Prediction) (envKey : Option String)
    (oracle : SerdeOracle) (env : Request → TransportResult) :
    Except AnyErr Unit × Prediction :=
  match api_key envKey with
  | .error e => (.error (.replicate e), p)
  | .ok _ =>
    let endpoint := p.urls.get
    let req := Request.httpGet endpoint
    match env req with
    | .sendError m => (.error (.msg m), p)
    | .textError _ m => (.error (.msg m), p)
    | .success _ data =>
      match oracle.parsePrediction data with
      | none => (.error (.msg "error decoding response body"), p)
      | some prediction => (.ok (), prediction)

/-- predictions.rs: `Prediction::get_stream` — if `urls.stream` is absent,
fail with `anyhow!("prediction has no stream url available")` before touching
the key or the network; otherwise GET the stream URL and wrap the body. -/
def Prediction.get_stream (p : Prediction) (envKey : Option String)
    (env : Request → TransportResult) :
    Except AnyErr StreamHandle × List Request :=
  match p.urls.stream with
  | some stream_url =>
    match api_key envKey with
    | .error e => (.error (.replicate e), [])
    | .ok _ =>
      let req := Request.httpGet stream_url
      match env req with
      | .sendError m => (.error (.msg m), [req])
      | .textError _ _ => (.ok ⟨stream_url⟩, [req])
      | .success _ _ => (.ok ⟨stream_url⟩, [req])
  | none => (.error (.msg "prediction has no stream url available"), [])

/-- predictions.rs: `struct PredictionClient`. -/
structure PredictionClient where
  config : ReplicateConfig

/-- predictions.rs: `PredictionClient::from`. -/
def PredictionClient.fromConfig (c : ReplicateConfig) : PredictionClient :=
  PredictionClient.mk c

/-- predictions.rs: `PredictionClient::create` — fetch the key, resolve the
latest version via `ModelClient::get_latest_version`, then POST
`{version, input, stream}` to `{base_url}/predictions`; 200/201 decodes a
`Prediction`, any other status maps through `get_error`. The body is carried
structurally in the request (its serde string encoding is external). -/
def PredictionClient.create (pc : PredictionClient) (owner name : String)
    (input : Value) (stream : Bool)
    (oracle : SerdeOracle) (env : Request → TransportResult) :
    Except ReplicateError Prediction × List Request :=
  match pc.config.get_api_key with
  | .error e => (.error e, [])
  | .ok _ =>
    let base_url := pc.config.get_base_url
    let model_client := ModelClient.fromConfig pc.config
    match model_client.get_latest_version owner name oracle env with
    | (.error e, t) => (.error e, t)
    | (.ok latest, t) =>
      let endpoint := base_url ++ "/predictions"
      let body : PredictionInput := ⟨latest.id, input, stream⟩
      let req := Request.httpPostJson endpoint body
      match env req with
      | .sendError m => (.error (.ClientError m), t ++ [req])
      | .textError _ m => (.error (.ClientError m), t ++ [req])
      | .success status data =>
        if status = 200 ∨ status = 201 then
          match oracle.parsePrediction data with
          | some prediction => (.ok prediction, t ++ [req])
          | none => (.error (.SerializationError
              "response body did not match expected shape"), t ++ [req])
        else
          (.error (get_error oracle.parseErrorData status data), t ++ [req])

/-- predictions.rs: `PredictionClient::get` — GET
`{base_url}/predictions/{id}` and decode the body as a `Prediction`. The
source never inspects the response status here. -/
def PredictionClient.get (pc : PredictionClient) (id : String)
    (oracle : SerdeOracle) (env : Request → TransportResult) :
    Except AnyErr Prediction × List Request :=
  match pc.config.get_api_key with
  | .error e => (.error (.replicate e), [])
  | .ok _ =>
    let base_url := pc.config.get_base_url
    let endpoint := base_url ++ "/predictions/" ++ id
    let req := Request.httpGet endpoint
    match env req with
    | .sendError m => (.error (.msg m), [req])
    | .textError _ m => (.error (.msg m), [req])
    | .success _ data =>
      match oracle.parsePrediction data with
      | some prediction => (.ok prediction, [req])
      | none => (.error (.msg "error decoding response body"), [req])

/-- predictions.rs: `PredictionClient::list` — GET `{base_url}/predictions`
and decode the body as `Predictions`. The source never inspects the response
status here. -/
def PredictionClient.list (pc : PredictionClient)
    (oracle : SerdeOracle) (env : Request → TransportResult) :
    Except AnyErr Predictions × List Request :=
  match pc.config.get_api_key with
  | .error e => (.error (.replicate e), [])
  | .ok _ =>
    let base_url := pc.config.get_base_url
    let endpoint := base_url ++ "/predictions"
    let req := Request.httpGet endpoint
    match env req with
    | .sendError m => (.error (.msg m), [req])
    | .textError _ m => (.error (.msg m), [req])
    | .success _ data =>
      match oracle.parsePredictions data with
      | some predictions => (.ok predictions, [req])
      | none => (.error (.msg "error decoding response body"), [req])

/-- predictions.rs: `PredictionClient::cancel` — POST
`{base_url}/predictions/{id}/cancel` and decode the body as a `Prediction`.
The source never inspects the response status here. -/
def PredictionClient.cancel (pc : PredictionClient) (id : String)
    (oracle : SerdeOracle) (env : Request → TransportResult) :
    Except AnyErr Prediction × List Request :=
  match pc.config.get_api_key with
  | .error e => (.error (.replicate e), [])
  | .ok _ =>
    let base_url := pc.config.get_base_url
    let endpoint := base_url ++ "/predictions/" ++ id ++ "/cancel"
    let req := Request.httpPost endpoint
    match env req with
    | .sendError m => (.error (.msg m), [req])
    | .textError _ m => (.error (.msg m), [req])
    | .success _ data =>
      match oracle.parsePrediction data with
      | some prediction => (.ok prediction, [req])
      | none => (.error (.msg "error decoding response body"), [req])

/-- Spec-side characterization (section 3 invariant): `output` is absent while
status is Starting or Processing. -/
def statusOutputInv (p : Prediction) : Bool :=
  match p.status, p.output with
  | .Starting, some _ => false
  | .Processing, some _ => false
  | _, _ => true

/-- Spec-side characterization (section 7): the message an error-mapping
branch should carry — `"title: detail"` when the body parses as
`{title, detail}`, the generic fallback otherwise. -/
def specErrorMessage (parseErrorData : String → Option ErrorData)
    (data : String) : String :=
  match parseErrorData data with
  | some d => d.title ++ ": " ++ d.detail
  | none => "error details not available"

/-- Spec-side characterization (section 7 / claim C4): is this error the
taxonomy's `InvalidRequest` kind (possibly wrapped by anyhow)? -/
def isInvalidRequestClass : AnyErr → Bool
  | .replicate (.InvalidRequest _) => true
  | _ => false

/-! ## Theorems -/

/-- C10: formatting a `ReplicateError` of kind `InvalidCredentials` or
`InvalidRequest` yields the fixed text "unknown replicate error", discarding
the carried message, while every other kind formats to exactly its carried
message. -/
theorem display_invalid_kinds_fixed_text_others_message (m : String) :
    (ReplicateError.InvalidCredentials m).display = "unknown replicate error" ∧
    (ReplicateError.InvalidRequest m).display = "unknown replicate error" ∧
    (ReplicateError.MissingCredentials m).display = m ∧
    (ReplicateError.PaymentNeeded m).display = m ∧
    (ReplicateError.ClientError m).display = m ∧
    (ReplicateError.Misc m).display = m ∧
    (ReplicateError.SerializationError m).display = m :=
  ⟨rfl, rfl, rfl, rfl, rfl, rfl, rfl⟩

/-- C5: for every non-2xx status and body, `get_error` returns
`PaymentNeeded` for 402, `InvalidCredentials` for 401, and `Misc` for every
other status, each carrying "title: detail" when the body parses as a
`{title, detail}` object and the generic fallback message otherwise
(captured by `specErrorMessage`). -/
theorem get_error_status_to_kind_mapping
    (parseErrorData : String → Option ErrorData) (data : String) (status : Nat)
    (h402 : status ≠ 402) (h401 : status ≠ 401) :
    get_error parseErrorData 402 data
      = .PaymentNeeded (specErrorMessage parseErrorData data) ∧
    get_error parseErrorData 401 data
      = .InvalidCredentials (specErrorMessage parseErrorData data) ∧
    get_error parseErrorData status data
      = .Misc (specErrorMessage parseErrorData data) := by
  refine ⟨?_, ?_, ?_⟩ <;>
    simp only [get_error, specErrorMessage, if_pos, if_neg, h402, h401,
      reduceIte] <;>
    cases parseErrorData data <;> rfl

/-- Witness for C5 at status 500 with an unparseable body and with a
parseable body. -/
theorem get_error_status_to_kind_mapping_witness :
    (500 ≠ 402 ∧ 500 ≠ 401) ∧
    (get_error (fun _ => none) 402 "x"
        = .PaymentNeeded (specErrorMessage (fun _ => none) "x") ∧
      get_error (fun _ => none) 401 "x"
        = .InvalidCredentials (specErrorMessage (fun _ => none) "x") ∧
      get_error (fun _ => none) 500 "x"
        = .Misc (specErrorMessage (fun _ => none) "x")) :=
  ⟨⟨by decide, by decide⟩,
    get_error_status_to_kind_mapping (fun _ => none) "x" 500
      (by decide) (by decide)⟩

/-- C9: given a versions-list response that decodes, `get_latest_version`
fails (with the literal `Misc` message from the source) exactly when the
results list is empty, and otherwise returns the first element (index 0) of
the results list. -/
theorem get_latest_version_returns_head_of_results
    (mc : ModelClient) (owner name : String)
    (oracle : SerdeOracle) (env : Request → TransportResult)
    (k vbody : String) (vs : ModelVersions)
    (hkey : mc.client.api_key = some k)
    (henv : env (Request.httpGet (mc.client.base_url ++ "/models/" ++ owner
        ++ "/" ++ name ++ "/versions")) = .success 200 vbody)
    (hparse : oracle.parseModelVersions vbody = some vs) :
    (vs.results = [] →
      (mc.get_latest_version owner name oracle env).1
        = .error (.Misc "no versions found for {owner}/{name}")) ∧
    (∀ v rest, vs.results = v :: rest →
      (mc.get_latest_version owner name oracle env).1 = .ok v) := by
  have hlist : mc.list_versions owner name oracle env
      = (.ok vs, [Request.httpGet (mc.client.base_url ++ "/models/" ++ owner
          ++ "/" ++ name ++ "/versions")]) := by
    simp only [ModelClient.list_versions, ReplicateConfig.get_api_key,
      ReplicateConfig.get_base_url, hkey, henv, hparse, if_pos]
  constructor
  · intro hnil
    simp only [ModelClient.get_latest_version, hlist, hnil, List.head?]
  · intro v rest hcons
    simp only [ModelClient.get_latest_version, hlist, hcons, List.head?]

/-- Fixtures for witnesses: a configured client, a version record and a
versions list decoded from the body "vbody". -/
def witnessConfig : ReplicateConfig :=
  ⟨some "test-api-key", "https://api.example"⟩

def witnessVersion : ModelVersion :=
  ⟨"5c7d5dc6", "2022-04-26T19:29:04.418669Z", "0.3.0", .null⟩

def witnessVersions : ModelVersions :=
  ⟨none, none, [witnessVersion]⟩

def witnessOracle : SerdeOracle where
  parseModelVersions := fun b => if b = "vbody" then some witnessVersions else none
  parsePrediction := fun _ => none
  parsePredictions := fun _ => none
  parseErrorData := fun _ => none

def witnessEnv : Request → TransportResult := fun _ => .success 200 "vbody"

/-- Witness for C9: on a concrete one-element versions response the latest
version returned is that element. -/
theorem get_latest_version_returns_head_of_results_witness :
    witnessConfig.api_key = some "test-api-key" ∧
    witnessEnv (Request.httpGet (witnessConfig.base_url ++ "/models/" ++ "own"
      ++ "/" ++ "mod" ++ "/versions")) = .success 200 "vbody" ∧
    witnessOracle.parseModelVersions "vbody" = some witnessVersions ∧
    ((ModelClient.mk witnessConfig).get_latest_version "own" "mod"
      witnessOracle witnessEnv).1 = .ok witnessVersion :=
  ⟨rfl, rfl, rfl,
    (get_latest_version_returns_head_of_results (ModelClient.mk witnessConfig)
      "own" "mod" witnessOracle witnessEnv "test-api-key" "vbody"
      witnessVersions rfl rfl rfl).2 witnessVersion [] rfl⟩

/-- C3: a successful `reload` replaces the entity by the freshly decoded
record wholesale — the final value equals the fresh record, and hence every
single field (id, model, version, input, status, created_at, all three urls,
output) equals that of the freshly parsed response record; no pre-reload
field value survives. -/
theorem reload_replaces_every_field
    (p : Prediction) (k : String) (st : Nat) (body : String)
    (oracle : SerdeOracle) (env : Request → TransportResult)
    (fresh : Prediction)
    (henv : env (Request.httpGet p.urls.get) = .success st body)
    (hparse : oracle.parsePrediction body = some fresh) :
    (p.reload (some k) oracle env).1 = .ok () ∧
    (p.reload (some k) oracle env).2 = fresh ∧
    (p.reload (some k) oracle env).2.id = fresh.id ∧
    (p.reload (some k) oracle env).2.model = fresh.model ∧
    (p.reload (some k) oracle env).2.version = fresh.version ∧
    (p.reload (some k) oracle env).2.input = fresh.input ∧
    (p.reload (some k) oracle env).2.status = fresh.status ∧
    (p.reload (some k) oracle env).2.created_at = fresh.created_at ∧
    (p.reload (some k) oracle env).2.urls.cancel = fresh.urls.cancel ∧
    (p.reload (some k) oracle env).2.urls.get = fresh.urls.get ∧
    (p.reload (some k) oracle env).2.urls.stream = fresh.urls.stream ∧
    (p.reload (some k) oracle env).2.output = fresh.output := by
  have h : p.reload (some k) oracle env = (.ok (), fresh) := by
    simp only [Prediction.reload, api_key, henv, hparse]
  rw [h]
  exact ⟨rfl, rfl, rfl, rfl, rfl, rfl, rfl, rfl, rfl, rfl, rfl, rfl⟩

/-- Fixtures for the reload witnesses: an entity in a Starting state and a
fresh Succeeded record the server reports for its self URL. -/
def witnessStaleUrls : PredictionUrls :=
  ⟨"https://api.example/predictions/1234/cancel",
   "https://api.example/predictions/1234", none⟩

def witnessStalePrediction : Prediction :=
  ⟨"1234", "replicate/hello-world", "5c7d5dc6", .obj [("text", .str "Alice")],
   .Starting, "2023-09-08T16:19:34.765994657Z", witnessStaleUrls, none⟩

def witnessFreshPrediction : Prediction :=
  ⟨"1234", "replicate/hello-world", "5c7d5dc6", .obj [("text", .str "Alice")],
   .Succeeded, "2023-09-08T16:19:34.765994657Z", witnessStaleUrls,
   some (.str "hello Alice")⟩

def witnessReloadOracle : SerdeOracle where
  parseModelVersions := fun _ => none
  parsePrediction := fun b =>
    if b = "freshbody" then some witnessFreshPrediction else none
  parsePredictions := fun _ => none
  parseErrorData := fun _ => none

def witnessReloadEnv : Request → TransportResult :=
  fun _ => .success 200 "freshbody"

/-- Witness for C3: reloading the concrete Starting entity against a
Succeeded response record yields exactly that fresh record. -/
theorem reload_replaces_every_field_witness :
    witnessReloadEnv (Request.httpGet witnessStalePrediction.urls.get)
      = .success 200 "freshbody" ∧
    witnessReloadOracle.parsePrediction "freshbody"
      = some witnessFreshPrediction ∧
    (witnessStalePrediction.reload (some "k") witnessReloadOracle
      witnessReloadEnv).2 = witnessFreshPrediction :=
  ⟨rfl, rfl,
    (reload_replaces_every_field witnessStalePrediction "k" 200 "freshbody"
      witnessReloadOracle witnessReloadEnv witnessFreshPrediction
      rfl rfl).2.1⟩

/-- C8: when `reload` fails — missing key, transport failure, body-read
failure, or a body that does not decode as a Prediction — the entity is left
exactly as it was before the call. -/
theorem reload_failure_leaves_entity_unchanged
    (p : Prediction) (envKey : Option String)
    (oracle : SerdeOracle) (env : Request → TransportResult) (e : AnyErr)
    (h : (p.reload envKey oracle env).1 = .error e) :
    (p.reload envKey oracle env).2 = p := by
  unfold Prediction.reload at *
  cases hkey : api_key envKey with
  | error _ => simp [hkey]
  | ok _ =>
    simp only [hkey] at h ⊢
    cases henv : env (Request.httpGet p.urls.get) with
    | sendError m => simp [henv]
    | textError s m => simp [henv]
    | success s data =>
      simp only [henv] at h ⊢
      cases hparse : oracle.parsePrediction data with
      | none => simp [hparse]
      | some fresh => simp [hparse] at h

/-- Witness for C8: a reload whose body does not decode leaves the concrete
entity untouched. -/
theorem reload_failure_leaves_entity_unchanged_witness :
    (witnessStalePrediction.reload (some "k") witnessReloadOracle
      (fun _ => .success 200 "garbage")).1
      = .error (.msg "error decoding response body") ∧
    (witnessStalePrediction.reload (some "k") witnessReloadOracle
      (fun _ => .success 200 "garbage")).2 = witnessStalePrediction :=
  ⟨rfl,
    reload_failure_leaves_entity_unchanged witnessStalePrediction (some "k")
      witnessReloadOracle (fun _ => .success 200 "garbage")
      (.msg "error decoding response body") rfl⟩

/-- Counterexample for C4: a prediction without a stream URL makes
`get_stream` fail, but the error produced is the untyped anyhow message
"prediction has no stream url available", not the section-7 taxonomy's
`InvalidRequest` kind that the claim names. -/
theorem get_stream_error_is_not_invalid_request_kind :
    (witnessStalePrediction.get_stream (some "k") witnessReloadEnv).1
      = .error (.msg "prediction has no stream url available") ∧
    isInvalidRequestClass (.msg "prediction has no stream url available")
      = false :=
  ⟨rfl, rfl⟩

/-- C4 (amended): when `urls.stream` is absent, `get_stream` fails with the
untyped anyhow error "prediction has no stream url available" — not the
taxonomy's `InvalidRequest` kind — and issues no network request at all
(empty trace), not even the credential lookup's. -/
theorem get_stream_no_url_fails_without_network_call
    (p : Prediction) (envKey : Option String)
    (env : Request → TransportResult)
    (h : p.urls.stream = none) :
    p.get_stream envKey env
      = (.error (.msg "prediction has no stream url available"), []) := by
  simp only [Prediction.get_stream, h]

/-- Witness for C4 (amended) at the concrete stream-less entity. -/
theorem get_stream_no_url_fails_without_network_call_witness :
    witnessStalePrediction.urls.stream = none ∧
    witnessStalePrediction.get_stream (some "k") witnessReloadEnv
      = (.error (.msg "prediction has no stream url available"), []) :=
  ⟨rfl,
    get_stream_no_url_fails_without_network_call witnessStalePrediction
      (some "k") witnessReloadEnv rfl⟩

/-- C1: when the model's version list is non-empty, `create` issues exactly
two requests — the resolver GET strictly before the creation POST, one round
trip each and no retries — and the submitted creation body's `version` field
is the id of the resolved latest version (the head of the results list). The
trace equality holds whatever the creation response is. -/
theorem create_two_round_trips_resolve_before_create
    (cfg : ReplicateConfig) (owner name : String)
    (input : Value) (stream : Bool)
    (oracle : SerdeOracle) (env : Request → TransportResult)
    (k vbody : String) (vs : ModelVersions) (v : ModelVersion)
    (rest : List ModelVersion)
    (hkey : cfg.api_key = some k)
    (henv : env (Request.httpGet (cfg.base_url ++ "/models/" ++ owner ++ "/"
        ++ name ++ "/versions")) = .success 200 vbody)
    (hparse : oracle.parseModelVersions vbody = some vs)
    (hres : vs.results = v :: rest) :
    ((PredictionClient.mk cfg).create owner name input stream oracle env).2
      = [Request.httpGet (cfg.base_url ++ "/models/" ++ owner ++ "/" ++ name
          ++ "/versions"),
         Request.httpPostJson (cfg.base_url ++ "/predictions")
          ⟨v.id, input, stream⟩] := by
  have hlatest : (ModelClient.fromConfig cfg).get_latest_version owner name
      oracle env
      = (.ok v, [Request.httpGet (cfg.base_url ++ "/models/" ++ owner ++ "/"
          ++ name ++ "/versions")]) := by
    simp only [ModelClient.get_latest_version, ModelClient.list_versions,
      ModelClient.fromConfig, ReplicateConfig.get_api_key,
      ReplicateConfig.get_base_url, hkey, henv, hparse, hres, if_pos,
      List.head?]
  simp only [PredictionClient.create, ReplicateConfig.get_api_key,
    ReplicateConfig.get_base_url, hkey, hlatest]
  cases env (Request.httpPostJson (cfg.base_url ++ "/predictions")
      ⟨v.id, input, stream⟩) with
  | sendError m => rfl
  | textError s m => rfl
  | success s d =>
    by_cases hs : s = 200 ∨ s = 201
    · simp only [if_pos hs]
      cases oracle.parsePrediction d <;> rfl
    · simp only [if_neg hs]
      rfl

/-- Witness for C1 at a concrete config, one-version model and constant
transport. -/
theorem create_two_round_trips_resolve_before_create_witness :
    witnessConfig.api_key = some "test-api-key" ∧
    witnessEnv (Request.httpGet (witnessConfig.base_url ++ "/models/" ++ "own"
      ++ "/" ++ "mod" ++ "/versions")) = .success 200 "vbody" ∧
    witnessOracle.parseModelVersions "vbody" = some witnessVersions ∧
    witnessVersions.results = witnessVersion :: [] ∧
    ((PredictionClient.mk witnessConfig).create "own" "mod" .null false
      witnessOracle witnessEnv).2
      = [Request.httpGet (witnessConfig.base_url ++ "/models/" ++ "own" ++ "/"
          ++ "mod" ++ "/versions"),
         Request.httpPostJson (witnessConfig.base_url ++ "/predictions")
          ⟨witnessVersion.id, .null, false⟩] :=
  ⟨rfl, rfl, rfl, rfl,
    create_two_round_trips_resolve_before_create witnessConfig "own" "mod"
      .null false witnessOracle witnessEnv "test-api-key" "vbody"
      witnessVersions witnessVersion [] rfl rfl rfl rfl⟩

/-- C2: when the model's version list is empty, `create` fails with the
resolver's zero-versions error — `Misc` carrying the source's literal
message "no versions found for \x7bowner\x7d/\x7bname\x7d" — and its trace
contains only the resolver GET: no request ever reaches the predictions
endpoint. -/
theorem create_zero_versions_fails_without_create_request
    (cfg : ReplicateConfig) (owner name : String)
    (input : Value) (stream : Bool)
    (oracle : SerdeOracle) (env : Request → TransportResult)
    (k vbody : String) (vs : ModelVersions)
    (hkey : cfg.api_key = some k)
    (henv : env (Request.httpGet (cfg.base_url ++ "/models/" ++ owner ++ "/"
        ++ name ++ "/versions")) = .success 200 vbody)
    (hparse : oracle.parseModelVersions vbody = some vs)
    (hres : vs.results = []) :
    ((PredictionClient.mk cfg).create owner name input stream oracle env).1
      = .error (.Misc "no versions found for {owner}/{name}") ∧
    ((PredictionClient.mk cfg).create owner name input stream oracle env).2
      = [Request.httpGet (cfg.base_url ++ "/models/" ++ owner ++ "/" ++ name
          ++ "/versions")] := by
  have hlatest : (ModelClient.fromConfig cfg).get_latest_version owner name
      oracle env
      = (.error (.Misc "no versions found for {owner}/{name}"),
         [Request.httpGet (cfg.base_url ++ "/models/" ++ owner ++ "/" ++ name
          ++ "/versions")]) := by
    simp only [ModelClient.get_latest_version, ModelClient.list_versions,
      ModelClient.fromConfig, ReplicateConfig.get_api_key,
      ReplicateConfig.get_base_url, hkey, henv, hparse, hres, if_pos,
      List.head?]
  constructor <;>
    simp only [PredictionClient.create, ReplicateConfig.get_api_key,
      ReplicateConfig.get_base_url, hkey, hlatest]

/-- Fixtures for C2's witness: a model whose versions list decodes empty. -/
def emptyVersionsOracle : SerdeOracle where
  parseModelVersions := fun b =>
    if b = "emptyvbody" then some ⟨none, none, []⟩ else none
  parsePrediction := fun _ => none
  parsePredictions := fun _ => none
  parseErrorData := fun _ => none

def emptyVersionsEnv : Request → TransportResult :=
  fun _ => .success 200 "emptyvbody"

/-- Witness for C2 at a concrete zero-version model. -/
theorem create_zero_versions_fails_without_create_request_witness :
    witnessConfig.api_key = some "test-api-key" ∧
    emptyVersionsEnv (Request.httpGet (witnessConfig.base_url ++ "/models/"
      ++ "own" ++ "/" ++ "mod" ++ "/versions")) = .success 200 "emptyvbody" ∧
    emptyVersionsOracle.parseModelVersions "emptyvbody"
      = some ⟨none, none, []⟩ ∧
    ((PredictionClient.mk witnessConfig).create "own" "mod" .null false
      emptyVersionsOracle emptyVersionsEnv).1
      = .error (.Misc "no versions found for {owner}/{name}") ∧
    ((PredictionClient.mk witnessConfig).create "own" "mod" .null false
      emptyVersionsOracle emptyVersionsEnv).2
      = [Request.httpGet (witnessConfig.base_url ++ "/models/" ++ "own"
          ++ "/" ++ "mod" ++ "/versions")] :=
  ⟨rfl, rfl, rfl,
    (create_zero_versions_fails_without_create_request witnessConfig "own"
      "mod" .null false emptyVersionsOracle emptyVersionsEnv "test-api-key"
      "emptyvbody" ⟨none, none, []⟩ rfl rfl rfl rfl).1,
    (create_zero_versions_fails_without_create_request witnessConfig "own"
      "mod" .null false emptyVersionsOracle emptyVersionsEnv "test-api-key"
      "emptyvbody" ⟨none, none, []⟩ rfl rfl rfl rfl).2⟩

/-- Fixtures for C6's counterexample: a transport that always answers with
HTTP 500 and a body that nevertheless decodes as a Prediction (while the
error-body decoder would also succeed, so `get_error` would have produced
`Misc "t: d"` had it been consulted). -/
def nonSuccessOracle : SerdeOracle where
  parseModelVersions := fun _ => none
  parsePrediction := fun _ => some witnessStalePrediction
  parsePredictions := fun _ => none
  parseErrorData := fun _ => some ⟨"t", "d"⟩

def nonSuccessEnv : Request → TransportResult :=
  fun _ => .success 500 "errbody"

/-- Counterexample for C6: `PredictionClient.get` receiving an HTTP 500
response does not route it through the section-7 error mapper at all — it
never inspects the status, and here it even returns `.ok` because the body
happens to decode as a Prediction, while `get_error` on that very response
would have produced `Misc "t: d"`. -/
theorem directory_get_succeeds_on_non_2xx_response :
    nonSuccessEnv (Request.httpGet
      (witnessConfig.base_url ++ "/predictions/" ++ "1234"))
      = .success 500 "errbody" ∧
    ((PredictionClient.mk witnessConfig).get "1234" nonSuccessOracle
      nonSuccessEnv).1 = .ok witnessStalePrediction ∧
    get_error nonSuccessOracle.parseErrorData 500 "errbody"
      = .Misc "t: d" :=
  ⟨rfl, rfl, rfl⟩

/-- C6 (amended): `get`, `list` and `cancel` never consult the response
status and never invoke the shared section-7 error mapper: their outcome
depends only on the response body, so the result is identical for any two
status codes — a non-2xx body that decodes as the expected record yields
success, and one that does not yields the serde decode error. Only `create`
(and `list_versions`) route non-2xx statuses through `get_error`. -/
theorem directory_ops_ignore_response_status
    (cfg : ReplicateConfig) (id : String) (oracle : SerdeOracle)
    (s₁ s₂ : Nat) (b : String) :
    (PredictionClient.mk cfg).get id oracle (fun _ => .success s₁ b)
      = (PredictionClient.mk cfg).get id oracle (fun _ => .success s₂ b) ∧
    (PredictionClient.mk cfg).list oracle (fun _ => .success s₁ b)
      = (PredictionClient.mk cfg).list oracle (fun _ => .success s₂ b) ∧
    (PredictionClient.mk cfg).cancel id oracle (fun _ => .success s₁ b)
      = (PredictionClient.mk cfg).cancel id oracle (fun _ => .success s₂ b) := by
  refine ⟨?_, ?_, ?_⟩ <;>
    simp only [PredictionClient.get, PredictionClient.list,
      PredictionClient.cancel, ReplicateConfig.get_api_key,
      ReplicateConfig.get_base_url]

/-- Fixture for C7's counterexample: a record the server could report — and
the client would hand back unchanged — whose status is Starting while its
output is already present. -/
def invariantViolatingPrediction : Prediction :=
  ⟨"9999", "replicate/hello-world", "5c7d5dc6", .null, .Starting,
   "2023-09-08T16:19:34.765994657Z", witnessStaleUrls, some (.str "early")⟩

def invariantViolatingOracle : SerdeOracle where
  parseModelVersions := fun _ => none
  parsePrediction := fun _ => some invariantViolatingPrediction
  parsePredictions := fun _ => none
  parseErrorData := fun _ => none

/-- Counterexample for C7: an operation of the client (here `get`) produces
a Prediction record whose status is Starting and whose output is present —
the client never enforces the output-absent-while-running invariant. -/
theorem get_returns_starting_prediction_with_output :
    ((PredictionClient.mk witnessConfig).get "9999" invariantViolatingOracle
      (fun _ => .success 200 "b")).1 = .ok invariantViolatingPrediction ∧
    invariantViolatingPrediction.status = .Starting ∧
    invariantViolatingPrediction.output = some (.str "early") ∧
    statusOutputInv invariantViolatingPrediction = false :=
  ⟨rfl, rfl, rfl, rfl⟩

/-- C7 (amended): the client does not establish the section-3 invariant;
each of `get`, `cancel`, `list`, `reload` and `create` returns the decoded
response record verbatim, so a produced record satisfies
output-absent-while-running exactly when the decoded server record does
(last conjunct: the invariant transfers from the decoded record to the
produced one). -/
theorem operations_pass_through_decoded_record
    (cfg : ReplicateConfig) (oracle : SerdeOracle)
    (env : Request → TransportResult) (k : String)
    (hkey : cfg.api_key = some k) :
    (∀ id st body r,
      env (Request.httpGet (cfg.base_url ++ "/predictions/" ++ id))
        = .success st body →
      oracle.parsePrediction body = some r →
      ((PredictionClient.mk cfg).get id oracle env).1 = .ok r) ∧
    (∀ id st body r,
      env (Request.httpPost (cfg.base_url ++ "/predictions/" ++ id
        ++ "/cancel")) = .success st body →
      oracle.parsePrediction body = some r →
      ((PredictionClient.mk cfg).cancel id oracle env).1 = .ok r) ∧
    (∀ st body ps,
      env (Request.httpGet (cfg.base_url ++ "/predictions"))
        = .success st body →
      oracle.parsePredictions body = some ps →
      ((PredictionClient.mk cfg).list oracle env).1 = .ok ps) ∧
    (∀ p st body r,
      env (Request.httpGet (Prediction.urls p).get) = .success st body →
      oracle.parsePrediction body = some r →
      (p.reload (some k) oracle env).2 = r) ∧
    (∀ owner name input stream vbody vs v rest st body r,
      env (Request.httpGet (cfg.base_url ++ "/models/" ++ owner ++ "/"
        ++ name ++ "/versions")) = .success 200 vbody →
      oracle.parseModelVersions vbody = some vs →
      vs.results = v :: rest →
      env (Request.httpPostJson (cfg.base_url ++ "/predictions")
        ⟨v.id, input, stream⟩) = .success st body →
      (st = 200 ∨ st = 201) →
      oracle.parsePrediction body = some r →
      ((PredictionClient.mk cfg).create owner name input stream oracle
        env).1 = .ok r) ∧
    (∀ id st body r,
      env (Request.httpGet (cfg.base_url ++ "/predictions/" ++ id))
        = .success st body →
      oracle.parsePrediction body = some r →
      statusOutputInv r = true →
      ∀ r', ((PredictionClient.mk cfg).get id oracle env).1 = .ok r' →
        statusOutputInv r' = true) := by
  have hget : ∀ id st body r,
      env (Request.httpGet (cfg.base_url ++ "/predictions/" ++ id))
        = .success st body →
      oracle.parsePrediction body = some r →
      ((PredictionClient.mk cfg).get id oracle env).1 = .ok r := by
    intro id st body r henv hparse
    simp only [PredictionClient.get, ReplicateConfig.get_api_key,
      ReplicateConfig.get_base_url, hkey, henv, hparse]
  refine ⟨hget, ?_, ?_, ?_, ?_, ?_⟩
  · intro id st body r henv hparse
    simp only [PredictionClient.cancel, ReplicateConfig.get_api_key,
      ReplicateConfig.get_base_url, hkey, henv, hparse]
  · intro st body ps henv hparse
    simp only [PredictionClient.list, ReplicateConfig.get_api_key,
      ReplicateConfig.get_base_url, hkey, henv, hparse]
  · intro p st body r henv hparse
    simp only [Prediction.reload, api_key, henv, hparse]
  · intro owner name input stream vbody vs v rest st body r
      henv1 hparse1 hres henv2 hst hparse2
    have hlatest : (ModelClient.fromConfig cfg).get_latest_version owner name
        oracle env
        = (.ok v, [Request.httpGet (cfg.base_url ++ "/models/" ++ owner
            ++ "/" ++ name ++ "/versions")]) := by
      simp only [ModelClient.get_latest_version, ModelClient.list_versions,
        ModelClient.fromConfig, ReplicateConfig.get_api_key,
        ReplicateConfig.get_base_url, hkey, henv1, hparse1, hres, if_pos,
        List.head?]
    simp only [PredictionClient.create, ReplicateConfig.get_api_key,
      ReplicateConfig.get_base_url, hkey, hlatest, henv2, if_pos hst,
      hparse2]
  · intro id st body r henv hparse hinv r' hr'
    have h := hget id st body r henv hparse
    rw [h] at hr'
    cases hr'
    exact hinv

/-- Witness for C7 (amended): against a concrete server record satisfying
the invariant, `get` hands back exactly that record. -/
theorem operations_pass_through_decoded_record_witness :
    witnessConfig.api_key = some "test-api-key" ∧
    witnessReloadEnv (Request.httpGet
      (witnessConfig.base_url ++ "/predictions/" ++ "1234"))
      = .success 200 "freshbody" ∧
    witnessReloadOracle.parsePrediction "freshbody"
      = some witnessFreshPrediction ∧
    ((PredictionClient.mk witnessConfig).get "1234" witnessReloadOracle
      witnessReloadEnv).1 = .ok witnessFreshPrediction :=
  ⟨rfl, rfl, rfl,
    (operations_pass_through_decoded_record witnessConfig witnessReloadOracle
      witnessReloadEnv "test-api-key" rfl).1 "1234" 200 "freshbody"
      witnessFreshPrediction rfl rfl⟩

end Replicate
